import Mathlib

/-!
Shallow embedding of the page-scrape core of the SWA-scraper repository
(`javascript modules/scraper.js`).

The browser boundary is modelled by an environment `PageEnv` that fixes, for
one invocation of `pageScrape`, the outcome of every page query the code
issues: whether the initial `page.goto` reaches network quiescence, the
address the session lands on, whether the redirect-page submit control is
found within its bounded wait, the text contents matched by each row-indexed
structural query, and the outcome of each datastore insert.  Given such an
environment the control flow of `pageScrape` is deterministic, so the
function is embedded as a pure Lean function returning its result value
(`some flights` or the `none` no-result signal) together with the ordered
trace of observable effects (navigation, clicks, waits, row-error logs,
insert calls, browser close).

The four text normalizers live in `processing.js`, which is not part of the
sources given; the scraper only applies them to matched text, so the
development is parametric in a `Normalizers` record, and concrete
spec-modelled instances are provided for evaluating closed instances.
-/

/-- Flight metadata model: `class MetadataObj` of `scraper.js`.
`numStops` is a string because the scraper's own fallback value is the
string `"Nonstop"`; `planeChange` and the `seatsLeft` entries are optional
because the scraper's fallback for them is `null`. -/
structure MetadataObj where
  flightNums : List String
  numStops : String
  planeChange : Option Bool
  deptTime : String
  arrTime : String
  duration : String
  prices : List String
  seatsLeft : List (Option String)
  deriving Repr, DecidableEq

/-- Flight data model: `class FlightObj` of `scraper.js`. -/
structure FlightObj where
  departurePort : String
  arrivalPort : String
  date : String
  metadata : MetadataObj
  deriving Repr, DecidableEq

/-- The four pure text-processing functions imported from `processing.js`
(`processFlightNums`, `processNumStops`, `processSeatsLeft`,
`processPlaneChange`).  That file is not among the given sources; the spec
describes them as total pure string transforms, so the development is
parametric in them. -/
structure Normalizers where
  processFlightNums : String → List String
  processNumStops : String → String
  processSeatsLeft : String → Option String
  processPlaneChange : String → Option Bool

/-- Result texts of the row-indexed structural queries (`page.$x` calls) for
one row index `i`, in the order the scraper issues them: each field holds the
`textContent` of every element the XPath query matched (empty list = zero
matches).  `price j` and `seats j` are the matches of the tier-indexed fare
queries for tier slot `j` (the scraper queries `j = 1, 2, 3`).
`queryFault` models the page boundary itself failing for this row (a
rejected query promise), the unexpected-error case of the per-row retry
policy. -/
structure RowQueries where
  queryFault : Bool
  flightNum : List String
  numStops : List String
  planeChange : List String
  deptTime : List String
  deptTimeAmPm : List String
  arrTime : List String
  arrTimeAmPm : List String
  duration : List String
  price : Nat → List String
  seats : Nat → List String

/-- Errors that can abort the extraction of one row (caught by the per-row
`try`/`catch` of `pageScrape`). -/
inductive RowErr where
  /-- A page-boundary call for this row rejected. -/
  | queryFault : RowErr
  /-- `page.evaluate((el) => el.textContent, elems[0])` on a zero-match
  query result: `elems[0]` is `undefined` and the evaluation throws. -/
  | evalUndefined : RowErr
  deriving Repr, DecidableEq

/-- `page.evaluate((el) => el.textContent, elems[0])`: reading the text of
the first match of a query; throws when the query matched nothing. -/
def evalFirst : List String → Except RowErr String
  | [] => Except.error RowErr.evalUndefined
  | t :: _ => Except.ok t

/-- The guarded-query pattern of `pageScrape`
(`elems.length > 0 ? f(textContent(elems[0])) : dflt`). -/
def queryDefault (elems : List String) (f : String → α) (dflt : α) : α :=
  match elems with
  | t :: _ => f t
  | [] => dflt

/-- The inner fare loop of `pageScrape` (`for (let j = 1; j <= 3; j++)`):
for each tier slot it pushes the matched price text or the sentinel
`"Unavailable"`, and the processed seats text or `null`. -/
def tierLoop (nz : Normalizers) (q : RowQueries) : List Nat → List String × List (Option String)
  | [] => ([], [])
  | j :: js =>
    let p := queryDefault (q.price j) (fun t => t) "Unavailable"
    let s := queryDefault (q.seats j) nz.processSeatsLeft none
    let rest := tierLoop nz q js
    (p :: rest.1, s :: rest.2)

/-- The body of the per-row `try` block of `pageScrape`: issues every field
query for one row.  Flight numbers, stops and plane change guard on
`length > 0` and fall back to `[]` / `"Nonstop"` / `null`; the departure
time, its meridiem, the arrival time, its meridiem, and the duration are
read through `elems[0]` without a guard, so a zero-match query throws
(`evalFirst`).  Prices and seats are filled by `tierLoop` for slots 1..3. -/
def extractRow (nz : Normalizers) (q : RowQueries) : Except RowErr MetadataObj :=
  if q.queryFault then Except.error RowErr.queryFault else
  let flightNums := queryDefault q.flightNum nz.processFlightNums []
  let numStops := queryDefault q.numStops nz.processNumStops "Nonstop"
  let planeChange := queryDefault q.planeChange nz.processPlaneChange none
  match evalFirst q.deptTime with
  | Except.error e => Except.error e
  | Except.ok dt =>
    match evalFirst q.deptTimeAmPm with
    | Except.error e => Except.error e
    | Except.ok dtap =>
      match evalFirst q.arrTime with
      | Except.error e => Except.error e
      | Except.ok art =>
        match evalFirst q.arrTimeAmPm with
        | Except.error e => Except.error e
        | Except.ok artap =>
          match evalFirst q.duration with
          | Except.error e => Except.error e
          | Except.ok dur =>
            Except.ok
              { flightNums := flightNums
                numStops := numStops
                planeChange := planeChange
                deptTime := dt ++ " " ++ dtap
                arrTime := art ++ " " ++ artap
                duration := dur
                prices := (tierLoop nz q [1, 2, 3]).1
                seatsLeft := (tierLoop nz q [1, 2, 3]).2 }

/-- Whether extraction of one row raises (and so the row is skipped). -/
def rowFails (nz : Normalizers) (q : RowQueries) : Bool :=
  match extractRow nz q with
  | Except.ok _ => false
  | Except.error _ => true

/-- Observable effects of one `pageScrape` invocation, in program order. -/
inductive Event where
  /-- `page.goto(url, waitUntil networkidle2, timeout 90000)`. -/
  | navigate : String → Event
  /-- `page.waitForXPath` for the submit control, with its timeout (ms). -/
  | waitForSearchButton : Nat → Event
  /-- `cursor.click(search, waitForClick, paddingPercentage)`. -/
  | clickSearch : Nat → Nat → Event
  /-- `page.waitForTimeout(ms)`. -/
  | settleWait : Nat → Event
  /-- `console.warn` that no submit control was found. -/
  | warnNoSearchButton : Event
  /-- `window.scrollBy(0, dy)`. -/
  | scroll : Nat → Event
  /-- The `$$eval` row count result. -/
  | countRows : Nat → Event
  /-- `console.warn` that no flight data was found. -/
  | warnNoFlights : Event
  /-- `console.error` for the failed extraction of row `i`. -/
  | logRowError : Nat → Event
  /-- `console.log(flights)` before persistence. -/
  | logFlights : Event
  /-- `supabase.from("Flights").insert([flight])`. -/
  | insertFlight : FlightObj → Event
  /-- `console.error` for a failed insert. -/
  | logInsertError : Event
  /-- `console.log` for a successful insert. -/
  | logInsertOk : Event
  /-- `console.error` in the outer fatal `catch`. -/
  | logFatalError : Event
  /-- `browser.close()`. -/
  | closeBrowser : Event
  deriving Repr, DecidableEq

/-- `e` is a `browser.close()` event. -/
def isClose : Event → Bool
  | Event.closeBrowser => true
  | _ => false

/-- `e` is a datastore insert call. -/
def isInsertEvent : Event → Bool
  | Event.insertFlight _ => true
  | _ => false

/-- The fixed outcomes of the browser and datastore boundaries for one
invocation: whether `page.goto` fails, the address the page lands on, whether
the redirect-page submit control is found within its wait, the row-query
results (`rows.length` is the `$$eval` row count), and which insert attempts
(by position in the sweep) come back with an error. -/
structure PageEnv where
  gotoFails : Bool
  landedUrl : String
  searchButton : Bool
  rows : List RowQueries
  insertFails : Nat → Bool

/-- The redirect-handling branch of `pageScrape` (lines 109-124): when the
landed address differs from the requested `url`, wait up to 5000 ms for the
submit control; if found, human-like click (waitForClick 2500, padding 25%)
then a 5000 ms settle wait; if not found, a non-fatal warning. -/
def redirectEvents (env : PageEnv) (url : String) : List Event :=
  if env.landedUrl ≠ url then
    Event.waitForSearchButton 5000 ::
      (if env.searchButton then [Event.clickSearch 2500 25, Event.settleWait 5000]
       else [Event.warnNoSearchButton])
  else []

/-- The row loop of `pageScrape` (`for (let i = 1; i <= count; i++)`),
started at index `i`: each row's extraction either yields a record pushed
onto `flights`, or its error is caught and logged and the loop continues. -/
def extractLoop (nz : Normalizers) (dept arr dateStr : String) :
    Nat → List RowQueries → List FlightObj × List Event
  | _, [] => ([], [])
  | i, q :: qs =>
    match extractRow nz q with
    | Except.ok md =>
      let rest := extractLoop nz dept arr dateStr (i + 1) qs
      (FlightObj.mk dept arr dateStr md :: rest.1, rest.2)
    | Except.error _ =>
      let rest := extractLoop nz dept arr dateStr (i + 1) qs
      (rest.1, Event.logRowError i :: rest.2)

/-- The persistence sweep of `pageScrape` (`for (const flight of flights)`),
with `m` the position of the next attempt in the sweep: one insert call per
record; an insert error is logged, a success is logged, and the sweep
continues either way. -/
def persistLoop (insertFails : Nat → Bool) : Nat → List FlightObj → List Event
  | _, [] => []
  | m, f :: fs =>
    Event.insertFlight f ::
      (if insertFails m then Event.logInsertError else Event.logInsertOk) ::
        persistLoop insertFails (m + 1) fs

/-- `pageScrape(dept, arr, dateStr, url)` of `scraper.js` under environment
`env`: returns the value returned to the caller (`none` is the `null`
no-result signal) and the effect trace.  A failing `goto` throws into the
outer `catch`, which logs, closes the browser and returns `null`; a zero row
count warns, closes and returns `null`; otherwise the rows are extracted,
the records persisted one at a time, the browser closed and the record list
returned. -/
def pageScrape (nz : Normalizers) (env : PageEnv) (dept arr dateStr url : String) :
    Option (List FlightObj) × List Event :=
  if env.gotoFails then
    (none, [Event.navigate url, Event.logFatalError, Event.closeBrowser])
  else
    let pre := Event.navigate url ::
      (redirectEvents env url ++ [Event.scroll 450, Event.settleWait 3000])
    if env.rows.length = 0 then
      (none, pre ++ [Event.countRows 0, Event.warnNoFlights, Event.closeBrowser])
    else
      let ext := extractLoop nz dept arr dateStr 1 env.rows
      (some ext.1,
        pre ++ Event.countRows env.rows.length :: ext.2 ++ Event.logFlights ::
          (persistLoop env.insertFails 0 ext.1 ++ [Event.closeBrowser]))

/-- Whitespace tokenizer over a character list (`acc` holds the reversed
characters of the token being read). -/
def splitTokens : List Char → List Char → List String
  | [], acc => if acc.isEmpty then [] else [String.mk acc.reverse]
  | c :: cs, acc =>
    if c = ' ' then
      if acc.isEmpty then splitTokens cs []
      else String.mk acc.reverse :: splitTokens cs []
    else splitTokens cs (c :: acc)

/-- Modelled from the spec: the flight-number parser of `processing.js`
(absent from the given sources) — raw text to an ordered sequence of
flight-number tokens, empty or malformed input to the empty sequence. -/
def processFlightNums (s : String) : List String :=
  splitTokens s.toList []

/-- Modelled from the spec: the stop-count parser of `processing.js` (absent
from the given sources) — raw text to a stop descriptor (a count or the
`"Nonstop"` sentinel), unmatched input to `"Nonstop"`. -/
def processNumStops (s : String) : String :=
  let d := (s.toList.dropWhile (fun c => c = ' ')).takeWhile Char.isDigit
  if d.isEmpty then "Nonstop" else String.mk d

/-- Modelled from the spec: the seats-left parser of `processing.js` (absent
from the given sources) — raw text to a normalized availability indicator,
or `none` when the text carries no usable signal. -/
def processSeatsLeft (s : String) : Option String :=
  let d := s.toList.filter Char.isDigit
  if d.isEmpty then none else some (String.mk d)

/-- Modelled from the spec: the plane-change parser of `processing.js`
(absent from the given sources) — raw text to a boolean, or `none` when
indeterminate. -/
def processPlaneChange (s : String) : Option Bool :=
  if s.toList.all (fun c => c = ' ') then none else some true

/-- Concrete normalizers for evaluating closed instances. -/
def specNormalizers : Normalizers :=
  { processFlightNums := processFlightNums
    processNumStops := processNumStops
    processSeatsLeft := processSeatsLeft
    processPlaneChange := processPlaneChange }

/-- A fully populated row except for a missed second price tier and all
seats-left tiers. -/
def rqW1 : RowQueries :=
  { queryFault := false
    flightNum := ["WN 100"]
    numStops := ["1 stop"]
    planeChange := ["change planes"]
    deptTime := ["6:00"]
    deptTimeAmPm := ["AM"]
    arrTime := ["8:05"]
    arrTimeAmPm := ["AM"]
    duration := ["2h 5m"]
    price := fun j => if j = 2 then [] else ["$100"]
    seats := fun _ => [] }

/-- A successful navigation onto one extractable row. -/
def envW1 : PageEnv :=
  { gotoFails := false
    landedUrl := "https://x"
    searchButton := true
    rows := [rqW1]
    insertFails := fun _ => false }

/-- The records `pageScrape` produces on `envW1`. -/
def flightsW1 : List FlightObj :=
  ((pageScrape specNormalizers envW1 "LAX" "DAL" "2025-03-01" "https://x").1).getD []

/-- A row where every guarded query misses but the five unguarded queries
match: extraction completes with all documented defaults. -/
def rqW2 : RowQueries :=
  { queryFault := false
    flightNum := []
    numStops := []
    planeChange := []
    deptTime := ["6:00"]
    deptTimeAmPm := ["AM"]
    arrTime := ["8:05"]
    arrTimeAmPm := ["AM"]
    duration := ["2h 5m"]
    price := fun _ => []
    seats := fun _ => [] }

/-- A successful navigation that finds no rows. -/
def envW3 : PageEnv :=
  { gotoFails := false
    landedUrl := "https://x"
    searchButton := false
    rows := []
    insertFails := fun _ => false }

/-- A navigation that never reaches quiescence. -/
def envW7 : PageEnv :=
  { gotoFails := true
    landedUrl := ""
    searchButton := false
    rows := []
    insertFails := fun _ => false }

/-- A row whose departure-time query matches nothing: its extraction
throws. -/
def rqW9 : RowQueries :=
  { queryFault := false
    flightNum := ["WN 200"]
    numStops := ["Nonstop"]
    planeChange := []
    deptTime := []
    deptTimeAmPm := ["AM"]
    arrTime := ["8:05"]
    arrTimeAmPm := ["AM"]
    duration := ["1h 0m"]
    price := fun _ => ["$80"]
    seats := fun _ => ["2 left"] }

/-- A successful navigation onto a single row that fails to extract. -/
def envW9 : PageEnv :=
  { gotoFails := false
    landedUrl := "https://x"
    searchButton := false
    rows := [rqW9]
    insertFails := fun _ => false }

/-- A navigation onto one failing row followed by one extractable row. -/
def envW4 : PageEnv :=
  { gotoFails := false
    landedUrl := "https://x"
    searchButton := false
    rows := [rqW9, rqW1]
    insertFails := fun _ => false }

/-- A navigation onto one extractable row with a failing datastore. -/
def envW5 : PageEnv :=
  { gotoFails := false
    landedUrl := "https://x"
    searchButton := false
    rows := [rqW1]
    insertFails := fun _ => true }

/-- A navigation dropped onto a different address, with the submit control
present. -/
def envW8 : PageEnv :=
  { gotoFails := false
    landedUrl := "https://x/search-form"
    searchButton := true
    rows := [rqW1]
    insertFails := fun _ => false }

theorem tierLoop_fst_length (nz : Normalizers) (q : RowQueries) (js : List Nat) :
    (tierLoop nz q js).1.length = js.length := by
  induction js with
  | nil => rfl
  | cons j js ih => simp [tierLoop, ih]

theorem tierLoop_snd_length (nz : Normalizers) (q : RowQueries) (js : List Nat) :
    (tierLoop nz q js).2.length = js.length := by
  induction js with
  | nil => rfl
  | cons j js ih => simp [tierLoop, ih]

/-- A record built by the row `try` block carries exactly the tier-loop fare
lists and the guarded-query fallback fields. -/
theorem extractRow_ok_fields (nz : Normalizers) (q : RowQueries) (md : MetadataObj)
    (h : extractRow nz q = Except.ok md) :
    md.prices = (tierLoop nz q [1, 2, 3]).1 ∧
    md.seatsLeft = (tierLoop nz q [1, 2, 3]).2 ∧
    md.flightNums = queryDefault q.flightNum nz.processFlightNums [] ∧
    md.numStops = queryDefault q.numStops nz.processNumStops "Nonstop" ∧
    md.planeChange = queryDefault q.planeChange nz.processPlaneChange none := by
  unfold extractRow at h
  split at h
  · exact Except.noConfusion h
  · split at h
    · exact Except.noConfusion h
    · split at h
      · exact Except.noConfusion h
      · split at h
        · exact Except.noConfusion h
        · split at h
          · exact Except.noConfusion h
          · split at h
            · exact Except.noConfusion h
            · injection h with h
              subst h
              simp

/-- A row whose extraction succeeds had no boundary fault and non-empty
matches for the five unguarded queries. -/
theorem extractRow_ok_queries (nz : Normalizers) (q : RowQueries) (md : MetadataObj)
    (h : extractRow nz q = Except.ok md) :
    q.queryFault = false ∧ q.deptTime ≠ [] ∧ q.deptTimeAmPm ≠ [] ∧ q.arrTime ≠ [] ∧
    q.arrTimeAmPm ≠ [] ∧ q.duration ≠ [] := by
  unfold extractRow at h
  split at h
  · exact Except.noConfusion h
  next hq =>
    refine ⟨by simpa using hq, ?_⟩
    split at h
    · exact Except.noConfusion h
    next dt hdt =>
      split at h
      · exact Except.noConfusion h
      next dtap hdtap =>
        split at h
        · exact Except.noConfusion h
        next art hart =>
          split at h
          · exact Except.noConfusion h
          next artap hartap =>
            split at h
            · exact Except.noConfusion h
            next dur hdur =>
              refine ⟨?_, ?_, ?_, ?_, ?_⟩ <;>
                intro hcon
              · rw [hcon] at hdt; exact Except.noConfusion hdt
              · rw [hcon] at hdtap; exact Except.noConfusion hdtap
              · rw [hcon] at hart; exact Except.noConfusion hart
              · rw [hcon] at hartap; exact Except.noConfusion hartap
              · rw [hcon] at hdur; exact Except.noConfusion hdur

/-- A row with a missing unguarded query (time, meridiem or duration) cannot
extract: the evaluation throws into the per-row catch. -/
theorem extractRow_error_of_missing (nz : Normalizers) (q : RowQueries)
    (h : q.deptTime = [] ∨ q.deptTimeAmPm = [] ∨ q.arrTime = [] ∨
      q.arrTimeAmPm = [] ∨ q.duration = []) :
    ∃ e, extractRow nz q = Except.error e := by
  cases hE : extractRow nz q with
  | error e => exact ⟨e, rfl⟩
  | ok md =>
    have hn := extractRow_ok_queries nz q md hE
    rcases h with h | h | h | h | h
    · exact absurd h hn.2.1
    · exact absurd h hn.2.2.1
    · exact absurd h hn.2.2.2.1
    · exact absurd h hn.2.2.2.2.1
    · exact absurd h hn.2.2.2.2.2

theorem extractLoop_fst (nz : Normalizers) (d a ds : String) (i : Nat)
    (rows : List RowQueries) :
    (extractLoop nz d a ds i rows).1 = rows.filterMap (fun q =>
      match extractRow nz q with
      | Except.ok md => some (FlightObj.mk d a ds md)
      | Except.error _ => none) := by
  induction rows generalizing i with
  | nil => simp [extractLoop]
  | cons q qs ih =>
    cases hE : extractRow nz q with
    | ok md => simp [extractLoop, hE, ih]
    | error e => simp [extractLoop, hE, ih]

theorem extractLoop_length (nz : Normalizers) (d a ds : String) (i : Nat)
    (rows : List RowQueries) :
    (extractLoop nz d a ds i rows).1.length
      + (rows.filter (fun q => rowFails nz q)).length = rows.length := by
  induction rows generalizing i with
  | nil => simp [extractLoop]
  | cons q qs ih =>
    cases hE : extractRow nz q with
    | ok md =>
      have hf : rowFails nz q = false := by simp [rowFails, hE]
      have := ih (i + 1)
      simp [extractLoop, hE, hf]
      omega
    | error e =>
      have hf : rowFails nz q = true := by simp [rowFails, hE]
      have := ih (i + 1)
      simp [extractLoop, hE, hf]
      omega

theorem extractLoop_log (nz : Normalizers) (d a ds : String)
    (rows : List RowQueries) (i k : Nat) (hk : k < rows.length)
    (hf : rowFails nz (rows.get ⟨k, hk⟩) = true) :
    Event.logRowError (i + k) ∈ (extractLoop nz d a ds i rows).2 := by
  induction rows generalizing i k with
  | nil => simp at hk
  | cons q qs ih =>
    cases k with
    | zero =>
      simp at hf
      cases hE : extractRow nz q with
      | ok md => simp [rowFails, hE] at hf
      | error e => simp [extractLoop, hE]
    | succ k' =>
      have hk' : k' < qs.length := by simpa using hk
      have hf' : rowFails nz (qs.get ⟨k', hk'⟩) = true := by simpa using hf
      have hmem := ih (i + 1) k' hk' hf'
      cases hE : extractRow nz q with
      | ok md =>
        simp only [extractLoop, hE]
        have : i + (k' + 1) = i + 1 + k' := by omega
        rw [this]
        exact hmem
      | error e =>
        simp only [extractLoop, hE]
        have : i + (k' + 1) = i + 1 + k' := by omega
        rw [this]
        exact List.mem_cons_of_mem _ hmem

theorem extractLoop_snd_shape (nz : Normalizers) (d a ds : String) (i : Nat)
    (rows : List RowQueries) :
    ∀ e ∈ (extractLoop nz d a ds i rows).2, ∃ j, e = Event.logRowError j := by
  induction rows generalizing i with
  | nil => simp [extractLoop]
  | cons q qs ih =>
    intro e he
    cases hE : extractRow nz q with
    | ok md =>
      rw [extractLoop, hE] at he
      exact ih (i + 1) e he
    | error er =>
      rw [extractLoop, hE] at he
      rcases List.mem_cons.mp he with h | h
      · exact ⟨i, h⟩
      · exact ih (i + 1) e h

theorem persistLoop_filter_insert (fails : Nat → Bool) (m : Nat)
    (fs : List FlightObj) :
    (persistLoop fails m fs).filter isInsertEvent = fs.map Event.insertFlight := by
  induction fs generalizing m with
  | nil => rfl
  | cons f fs ih =>
    by_cases hf : fails m <;> simp [persistLoop, hf, isInsertEvent, ih]

theorem persistLoop_shape (fails : Nat → Bool) (m : Nat) (fs : List FlightObj) :
    ∀ e ∈ persistLoop fails m fs,
      (∃ f, e = Event.insertFlight f) ∨ e = Event.logInsertError ∨ e = Event.logInsertOk := by
  induction fs generalizing m with
  | nil => simp [persistLoop]
  | cons f fs ih =>
    intro e he
    rw [persistLoop] at he
    rcases List.mem_cons.mp he with h | h
    · exact Or.inl ⟨f, h⟩
    · rcases List.mem_cons.mp h with h' | h'
      · by_cases hf : fails m
        · rw [hf] at h'; simp at h'; exact Or.inr (Or.inl h')
        · rw [Bool.not_eq_true] at hf; rw [hf] at h'; simp at h'; exact Or.inr (Or.inr h')
      · exact ih (m + 1) e h'

theorem persistLoop_logError (fails : Nat → Bool) (fs : List FlightObj) (m k : Nat)
    (hk : k < fs.length) (hf : fails (m + k) = true) :
    Event.logInsertError ∈ persistLoop fails m fs := by
  induction fs generalizing m k with
  | nil => simp at hk
  | cons f fs ih =>
    cases k with
    | zero =>
      simp at hf
      simp [persistLoop, hf]
    | succ k' =>
      have hk' : k' < fs.length := by simpa using hk
      have hf' : fails (m + 1 + k') = true := by
        have : m + 1 + k' = m + (k' + 1) := by omega
        rw [this]; exact hf
      have := ih (m + 1) k' hk' hf'
      simp [persistLoop]
      tauto

theorem redirectEvents_shape (env : PageEnv) (u : String) :
    ∀ e ∈ redirectEvents env u,
      e = Event.waitForSearchButton 5000 ∨ e = Event.clickSearch 2500 25 ∨
      e = Event.settleWait 5000 ∨ e = Event.warnNoSearchButton := by
  intro e he
  unfold redirectEvents at he
  split at he
  · split at he <;> simp at he <;> tauto
  · simp at he

theorem pageScrape_goto (nz : Normalizers) (env : PageEnv) (d a ds u : String)
    (h : env.gotoFails = true) :
    pageScrape nz env d a ds u =
      (none, [Event.navigate u, Event.logFatalError, Event.closeBrowser]) := by
  simp [pageScrape, h]

theorem pageScrape_zero (nz : Normalizers) (env : PageEnv) (d a ds u : String)
    (h1 : env.gotoFails = false) (h2 : env.rows = []) :
    pageScrape nz env d a ds u =
      (none, Event.navigate u ::
        (redirectEvents env u ++ [Event.scroll 450, Event.settleWait 3000]) ++
        [Event.countRows 0, Event.warnNoFlights, Event.closeBrowser]) := by
  simp [pageScrape, h1, h2]

theorem pageScrape_pos (nz : Normalizers) (env : PageEnv) (d a ds u : String)
    (h1 : env.gotoFails = false) (h2 : env.rows ≠ []) :
    pageScrape nz env d a ds u =
      (some (extractLoop nz d a ds 1 env.rows).1,
        Event.navigate u ::
          (redirectEvents env u ++ [Event.scroll 450, Event.settleWait 3000]) ++
          Event.countRows env.rows.length :: (extractLoop nz d a ds 1 env.rows).2 ++
          Event.logFlights ::
            (persistLoop env.insertFails 0 (extractLoop nz d a ds 1 env.rows).1 ++
              [Event.closeBrowser])) := by
  have hl : env.rows.length ≠ 0 := by
    intro hc
    exact h2 (List.length_eq_zero.mp hc)
  simp [pageScrape, h1, hl]

theorem pageScrape_some_inv (nz : Normalizers) (env : PageEnv) (d a ds u : String)
    (flights : List FlightObj)
    (h : (pageScrape nz env d a ds u).1 = some flights) :
    env.gotoFails = false ∧ env.rows ≠ [] ∧
    flights = (extractLoop nz d a ds 1 env.rows).1 := by
  by_cases hg : env.gotoFails
  · rw [pageScrape_goto nz env d a ds u hg] at h
    exact Option.noConfusion h
  · by_cases hr : env.rows = []
    · rw [pageScrape_zero nz env d a ds u (by simpa using hg) hr] at h
      exact Option.noConfusion h
    · rw [pageScrape_pos nz env d a ds u (by simpa using hg) hr] at h
      exact ⟨by simpa using hg, hr, (Option.some.inj h).symm⟩

theorem redirectEvents_no_close (env : PageEnv) (u : String) :
    (redirectEvents env u).filter isClose = [] := by
  unfold redirectEvents
  split
  · split <;> simp [isClose]
  · rfl

theorem redirectEvents_no_insert (env : PageEnv) (u : String) :
    (redirectEvents env u).filter isInsertEvent = [] := by
  unfold redirectEvents
  split
  · split <;> simp [isInsertEvent]
  · rfl

theorem extractLoop_no_close (nz : Normalizers) (d a ds : String) (i : Nat)
    (rows : List RowQueries) :
    ((extractLoop nz d a ds i rows).2).filter isClose = [] := by
  induction rows generalizing i with
  | nil => rfl
  | cons q qs ih => cases hE : extractRow nz q <;> simp [extractLoop, hE, isClose, ih]

theorem extractLoop_no_insert (nz : Normalizers) (d a ds : String) (i : Nat)
    (rows : List RowQueries) :
    ((extractLoop nz d a ds i rows).2).filter isInsertEvent = [] := by
  induction rows generalizing i with
  | nil => rfl
  | cons q qs ih => cases hE : extractRow nz q <;> simp [extractLoop, hE, isInsertEvent, ih]

theorem persistLoop_no_close (fails : Nat → Bool) (m : Nat) (fs : List FlightObj) :
    (persistLoop fails m fs).filter isClose = [] := by
  induction fs generalizing m with
  | nil => rfl
  | cons f fs ih => by_cases hf : fails m <;> simp [persistLoop, hf, isClose, ih]

theorem mem_trace_of_mem_redirect (nz : Normalizers) (env : PageEnv) (d a ds u : String)
    (e : Event) (h1 : env.gotoFails = false) (he : e ∈ redirectEvents env u) :
    e ∈ (pageScrape nz env d a ds u).2 := by
  by_cases hr : env.rows = []
  · rw [pageScrape_zero nz env d a ds u h1 hr]
    simp
    tauto
  · rw [pageScrape_pos nz env d a ds u h1 hr]
    simp
    tauto

theorem pageScrape_trace_mem (nz : Normalizers) (env : PageEnv) (d a ds u : String)
    (e : Event) (he : e ∈ (pageScrape nz env d a ds u).2) :
    e ∈ redirectEvents env u ∨ (∃ j, e = Event.logRowError j) ∨
    (∃ f, e = Event.insertFlight f) ∨ e = Event.logInsertError ∨ e = Event.logInsertOk ∨
    e = Event.navigate u ∨ e = Event.scroll 450 ∨ e = Event.settleWait 3000 ∨
    e = Event.countRows env.rows.length ∨ e = Event.countRows 0 ∨
    e = Event.warnNoFlights ∨ e = Event.logFlights ∨
    e = Event.logFatalError ∨ e = Event.closeBrowser := by
  by_cases hg : env.gotoFails
  · rw [pageScrape_goto nz env d a ds u hg] at he
    simp at he
    tauto
  · by_cases hr : env.rows = []
    · rw [pageScrape_zero nz env d a ds u (by simpa using hg) hr] at he
      simp at he
      tauto
    · rw [pageScrape_pos nz env d a ds u (by simpa using hg) hr] at he
      simp at he
      rcases he with h | h | h | h | h | h | h | h | h <;>
        first
          | tauto
          | exact Or.inr (Or.inl (extractLoop_snd_shape nz d a ds 1 env.rows e h))
          | (rcases persistLoop_shape env.insertFails 0
                (extractLoop nz d a ds 1 env.rows).1 e h with h' | h' | h' <;> tauto)

/-- Claim C1: every record produced by `pageScrape` has exactly 3 prices and
3 seats-left entries, regardless of how many fare tiers the page query
matched; a missed price tier slot holds the sentinel `"Unavailable"` and a
missed seats tier slot holds `null`. -/
theorem c1_three_tier_slots (nz : Normalizers) (env : PageEnv) (d a ds u : String)
    (flights : List FlightObj)
    (h : (pageScrape nz env d a ds u).1 = some flights) :
    (∀ f ∈ flights, f.metadata.prices.length = 3 ∧ f.metadata.seatsLeft.length = 3) ∧
    (∀ (q : RowQueries) (md : MetadataObj), extractRow nz q = Except.ok md →
      ∀ j, 1 ≤ j → j ≤ 3 →
        (q.price j = [] → md.prices.get? (j - 1) = some "Unavailable") ∧
        (q.seats j = [] → md.seatsLeft.get? (j - 1) = some none)) := by
  constructor
  · intro f hf
    obtain ⟨hg, hr, hfl⟩ := pageScrape_some_inv nz env d a ds u flights h
    rw [hfl, extractLoop_fst] at hf
    obtain ⟨q, hq, hsome⟩ := List.mem_filterMap.mp hf
    cases hE : extractRow nz q with
    | error e => rw [hE] at hsome; exact Option.noConfusion hsome
    | ok md =>
      rw [hE] at hsome
      cases Option.some.inj hsome
      obtain ⟨hp, hs, _⟩ := extractRow_ok_fields nz q md hE
      constructor
      · show md.prices.length = 3
        rw [hp, tierLoop_fst_length]; rfl
      · show md.seatsLeft.length = 3
        rw [hs, tierLoop_snd_length]; rfl
  · intro q md hE j hj1 hj3
    obtain ⟨hp, hs, _⟩ := extractRow_ok_fields nz q md hE
    have hcase : j = 1 ∨ j = 2 ∨ j = 3 := by omega
    rcases hcase with rfl | rfl | rfl <;>
      exact ⟨fun hm => by rw [hp]; simp [tierLoop, queryDefault, hm],
             fun hm => by rw [hs]; simp [tierLoop, queryDefault, hm]⟩

theorem c1_three_tier_slots_witness :
    (pageScrape specNormalizers envW1 "LAX" "DAL" "2025-03-01" "https://x").1
        = some flightsW1 ∧
    ((∀ f ∈ flightsW1,
        f.metadata.prices.length = 3 ∧ f.metadata.seatsLeft.length = 3) ∧
      (∀ (q : RowQueries) (md : MetadataObj),
        extractRow specNormalizers q = Except.ok md →
        ∀ j, 1 ≤ j → j ≤ 3 →
          (q.price j = [] → md.prices.get? (j - 1) = some "Unavailable") ∧
          (q.seats j = [] → md.seatsLeft.get? (j - 1) = some none))) :=
  ⟨by decide,
    c1_three_tier_slots specNormalizers envW1 "LAX" "DAL" "2025-03-01" "https://x"
      flightsW1 (by decide)⟩

/-- Claim C2 counterexample: a row whose departure-time query matches
nothing does not complete with an empty-string default — its extraction
raises, the per-row handler logs it, and the row is skipped. -/
theorem c2_counterexample_time_query_throws :
    extractRow specNormalizers rqW9 = Except.error RowErr.evalUndefined ∧
    (pageScrape specNormalizers envW9 "LAX" "DAL" "2025-03-01" "https://x").1 = some [] ∧
    Event.logRowError 1
      ∈ (pageScrape specNormalizers envW9 "LAX" "DAL" "2025-03-01" "https://x").2 :=
  ⟨by rfl, by decide, by decide⟩

/-- Claim C2 (amended): a zero-match query is a non-error default for flight
numbers (empty sequence), stop indicator (`"Nonstop"`), plane change
(`null`), price tiers (`"Unavailable"`) and seats tiers (`null`); but for
the departure time, its meridiem, the arrival time, its meridiem and the
duration there is no zero-match fallback — the row's extraction raises an
error (caught by the per-row handler, which skips the row). -/
theorem c2_amended_field_defaults (nz : Normalizers) (q : RowQueries) :
    (∀ md, extractRow nz q = Except.ok md →
      (q.flightNum = [] → md.flightNums = []) ∧
      (q.numStops = [] → md.numStops = "Nonstop") ∧
      (q.planeChange = [] → md.planeChange = none) ∧
      (∀ j, 1 ≤ j → j ≤ 3 →
        (q.price j = [] → md.prices.get? (j - 1) = some "Unavailable") ∧
        (q.seats j = [] → md.seatsLeft.get? (j - 1) = some none))) ∧
    ((q.deptTime = [] ∨ q.deptTimeAmPm = [] ∨ q.arrTime = [] ∨
      q.arrTimeAmPm = [] ∨ q.duration = []) →
      ∃ e, extractRow nz q = Except.error e) := by
  constructor
  · intro md hE
    obtain ⟨hp, hs, hfn, hns, hpc⟩ := extractRow_ok_fields nz q md hE
    refine ⟨?_, ?_, ?_, ?_⟩
    · intro hm; rw [hfn]; simp [queryDefault, hm]
    · intro hm; rw [hns]; simp [queryDefault, hm]
    · intro hm; rw [hpc]; simp [queryDefault, hm]
    · intro j hj1 hj3
      have hcase : j = 1 ∨ j = 2 ∨ j = 3 := by omega
      rcases hcase with rfl | rfl | rfl <;>
        exact ⟨fun hm => by rw [hp]; simp [tierLoop, queryDefault, hm],
               fun hm => by rw [hs]; simp [tierLoop, queryDefault, hm]⟩
  · exact extractRow_error_of_missing nz q

theorem c2_amended_field_defaults_witness :
    extractRow specNormalizers rqW2 = Except.ok
      (MetadataObj.mk [] "Nonstop" none "6:00 AM" "8:05 AM" "2h 5m"
        ["Unavailable", "Unavailable", "Unavailable"] [none, none, none]) ∧
    ((∀ md, extractRow specNormalizers rqW2 = Except.ok md →
      (rqW2.flightNum = [] → md.flightNums = []) ∧
      (rqW2.numStops = [] → md.numStops = "Nonstop") ∧
      (rqW2.planeChange = [] → md.planeChange = none) ∧
      (∀ j, 1 ≤ j → j ≤ 3 →
        (rqW2.price j = [] → md.prices.get? (j - 1) = some "Unavailable") ∧
        (rqW2.seats j = [] → md.seatsLeft.get? (j - 1) = some none))) ∧
    ((rqW2.deptTime = [] ∨ rqW2.deptTimeAmPm = [] ∨ rqW2.arrTime = [] ∨
      rqW2.arrTimeAmPm = [] ∨ rqW2.duration = []) →
      ∃ e, extractRow specNormalizers rqW2 = Except.error e)) :=
  ⟨by rfl, c2_amended_field_defaults specNormalizers rqW2⟩

/-- Claim C3: a zero row count ends the invocation cleanly: the no-result
signal is returned, the no-flights warning is logged, no fatal error is
raised, nothing is persisted and no row is extracted. -/
theorem c3_zero_rows_clean (nz : Normalizers) (env : PageEnv) (d a ds u : String)
    (h1 : env.gotoFails = false) (h2 : env.rows = []) :
    (pageScrape nz env d a ds u).1 = none ∧
    Event.warnNoFlights ∈ (pageScrape nz env d a ds u).2 ∧
    Event.logFatalError ∉ (pageScrape nz env d a ds u).2 ∧
    (∀ f, Event.insertFlight f ∉ (pageScrape nz env d a ds u).2) ∧
    (∀ i, Event.logRowError i ∉ (pageScrape nz env d a ds u).2) := by
  rw [pageScrape_zero nz env d a ds u h1 h2]
  refine ⟨rfl, by simp, ?_, ?_, ?_⟩
  · intro hmem
    simp at hmem
    rcases redirectEvents_shape env u _ hmem with h | h | h | h <;> simp at h
  · intro f hmem
    simp at hmem
    rcases redirectEvents_shape env u _ hmem with h | h | h | h <;> simp at h
  · intro i hmem
    simp at hmem
    rcases redirectEvents_shape env u _ hmem with h | h | h | h <;> simp at h

theorem c3_zero_rows_clean_witness :
    envW3.gotoFails = false ∧ envW3.rows = [] ∧
    ((pageScrape specNormalizers envW3 "LAX" "DAL" "2025-03-01" "https://x").1 = none ∧
      Event.warnNoFlights ∈ (pageScrape specNormalizers envW3 "LAX" "DAL" "2025-03-01" "https://x").2 ∧
      Event.logFatalError ∉ (pageScrape specNormalizers envW3 "LAX" "DAL" "2025-03-01" "https://x").2 ∧
      (∀ f, Event.insertFlight f ∉ (pageScrape specNormalizers envW3 "LAX" "DAL" "2025-03-01" "https://x").2) ∧
      (∀ i, Event.logRowError i ∉ (pageScrape specNormalizers envW3 "LAX" "DAL" "2025-03-01" "https://x").2)) :=
  ⟨rfl, rfl, c3_zero_rows_clean specNormalizers envW3 "LAX" "DAL" "2025-03-01" "https://x" rfl rfl⟩

/-- Claim C4: an unexpected error while extracting row k is caught and
logged, no record is added for row k, extraction proceeds with the remaining
rows, and the number of produced records is the row count minus the number
of failed rows. -/
theorem c4_per_row_failure_isolation (nz : Normalizers) (env : PageEnv)
    (d a ds u : String) (h1 : env.gotoFails = false) (h2 : env.rows ≠ []) :
    ∃ flights, (pageScrape nz env d a ds u).1 = some flights ∧
      flights = env.rows.filterMap (fun q =>
        match extractRow nz q with
        | Except.ok md => some (FlightObj.mk d a ds md)
        | Except.error _ => none) ∧
      flights.length
        = env.rows.length - (env.rows.filter (fun q => rowFails nz q)).length ∧
      ∀ k (hk : k < env.rows.length), rowFails nz (env.rows.get ⟨k, hk⟩) = true →
        Event.logRowError (1 + k) ∈ (pageScrape nz env d a ds u).2 := by
  refine ⟨(extractLoop nz d a ds 1 env.rows).1, ?_, ?_, ?_, ?_⟩
  · rw [pageScrape_pos nz env d a ds u h1 h2]
  · exact extractLoop_fst nz d a ds 1 env.rows
  · have := extractLoop_length nz d a ds 1 env.rows
    omega
  · intro k hk hf
    have hmem := extractLoop_log nz d a ds env.rows 1 k hk hf
    rw [pageScrape_pos nz env d a ds u h1 h2]
    simp
    tauto

theorem c4_per_row_failure_isolation_witness :
    envW4.gotoFails = false ∧ envW4.rows ≠ [] ∧
    (∃ flights,
      (pageScrape specNormalizers envW4 "LAX" "DAL" "2025-03-01" "https://x").1
          = some flights ∧
      flights = envW4.rows.filterMap (fun q =>
        match extractRow specNormalizers q with
        | Except.ok md => some (FlightObj.mk "LAX" "DAL" "2025-03-01" md)
        | Except.error _ => none) ∧
      flights.length = envW4.rows.length
        - (envW4.rows.filter (fun q => rowFails specNormalizers q)).length ∧
      ∀ k (hk : k < envW4.rows.length),
        rowFails specNormalizers (envW4.rows.get ⟨k, hk⟩) = true →
        Event.logRowError (1 + k)
          ∈ (pageScrape specNormalizers envW4 "LAX" "DAL" "2025-03-01" "https://x").2) :=
  ⟨rfl, List.cons_ne_nil _ _,
    c4_per_row_failure_isolation specNormalizers envW4 "LAX" "DAL" "2025-03-01" "https://x"
      rfl (List.cons_ne_nil _ _)⟩

/-- Claim C5: persistence is a sequential sweep with exactly one insert call
per built record, in order; a failed insert is logged and does not prevent
the inserts of the remaining records, and the built records are returned,
not discarded. -/
theorem c5_persistence_sweep (nz : Normalizers) (env : PageEnv) (d a ds u : String)
    (h1 : env.gotoFails = false) (h2 : env.rows ≠ []) :
    ∃ flights, (pageScrape nz env d a ds u).1 = some flights ∧
      (pageScrape nz env d a ds u).2.filter isInsertEvent
        = flights.map Event.insertFlight ∧
      ∀ k, k < flights.length → env.insertFails k = true →
        Event.logInsertError ∈ (pageScrape nz env d a ds u).2 := by
  refine ⟨(extractLoop nz d a ds 1 env.rows).1, ?_, ?_, ?_⟩
  · rw [pageScrape_pos nz env d a ds u h1 h2]
  · rw [pageScrape_pos nz env d a ds u h1 h2]
    simp only [List.filter_append, List.filter_cons, List.filter]
    simp [isInsertEvent, List.filter_append, redirectEvents_no_insert,
      extractLoop_no_insert, persistLoop_filter_insert]
  · intro k hk hf
    have hmem := persistLoop_logError env.insertFails
      (extractLoop nz d a ds 1 env.rows).1 0 k hk (by simpa using hf)
    rw [pageScrape_pos nz env d a ds u h1 h2]
    simp
    tauto

theorem c5_persistence_sweep_witness :
    envW5.gotoFails = false ∧ envW5.rows ≠ [] ∧
    (∃ flights,
      (pageScrape specNormalizers envW5 "LAX" "DAL" "2025-03-01" "https://x").1
          = some flights ∧
      (pageScrape specNormalizers envW5 "LAX" "DAL" "2025-03-01" "https://x").2.filter
          isInsertEvent = flights.map Event.insertFlight ∧
      ∀ k, k < flights.length → envW5.insertFails k = true →
        Event.logInsertError
          ∈ (pageScrape specNormalizers envW5 "LAX" "DAL" "2025-03-01" "https://x").2) :=
  ⟨rfl, List.cons_ne_nil _ _,
    c5_persistence_sweep specNormalizers envW5 "LAX" "DAL" "2025-03-01" "https://x"
      rfl (List.cons_ne_nil _ _)⟩

/-- Claim C6: on every execution path of `pageScrape` that reaches the
navigation stage or later — the zero-row outcome, the successful outcome and
the fatal-error outcome — the browser session is closed exactly once, and
the close is the last effect before the invocation returns. -/
theorem c6_session_released_once (nz : Normalizers) (env : PageEnv) (d a ds u : String) :
    ∃ pre, (pageScrape nz env d a ds u).2 = pre ++ [Event.closeBrowser] ∧
      pre.filter isClose = [] := by
  by_cases hg : env.gotoFails
  · refine ⟨[Event.navigate u, Event.logFatalError], ?_, by simp [isClose]⟩
    rw [pageScrape_goto nz env d a ds u hg]
    rfl
  · by_cases hr : env.rows = []
    · refine ⟨Event.navigate u ::
        (redirectEvents env u ++ [Event.scroll 450, Event.settleWait 3000]) ++
        [Event.countRows 0, Event.warnNoFlights], ?_, ?_⟩
      · rw [pageScrape_zero nz env d a ds u (by simpa using hg) hr]
        simp
      · simp [isClose, List.filter_append, redirectEvents_no_close]
    · refine ⟨Event.navigate u ::
        (redirectEvents env u ++ [Event.scroll 450, Event.settleWait 3000]) ++
        Event.countRows env.rows.length :: (extractLoop nz d a ds 1 env.rows).2 ++
        Event.logFlights :: persistLoop env.insertFails 0 (extractLoop nz d a ds 1 env.rows).1,
        ?_, ?_⟩
      · rw [pageScrape_pos nz env d a ds u (by simpa using hg) hr]
        simp
      · simp [isClose, List.filter_append, redirectEvents_no_close,
          extractLoop_no_close, persistLoop_no_close]

/-- Claim C7: a navigation that never reaches quiescence is fatal: the
no-result signal is returned, the session is closed exactly once, no rows
are enumerated, nothing is extracted or persisted, and the fatal error is
logged. -/
theorem c7_fatal_navigation_aborts (nz : Normalizers) (env : PageEnv) (d a ds u : String)
    (h : env.gotoFails = true) :
    (pageScrape nz env d a ds u).1 = none ∧
    ((pageScrape nz env d a ds u).2.filter isClose).length = 1 ∧
    (∀ n, Event.countRows n ∉ (pageScrape nz env d a ds u).2) ∧
    (∀ f, Event.insertFlight f ∉ (pageScrape nz env d a ds u).2) ∧
    (∀ i, Event.logRowError i ∉ (pageScrape nz env d a ds u).2) ∧
    Event.logFatalError ∈ (pageScrape nz env d a ds u).2 := by
  rw [pageScrape_goto nz env d a ds u h]
  refine ⟨rfl, by simp [isClose], ?_, ?_, ?_, by simp⟩ <;> intro x <;> simp

theorem c7_fatal_navigation_aborts_witness :
    envW7.gotoFails = true ∧
    ((pageScrape specNormalizers envW7 "LAX" "DAL" "2025-03-01" "https://x").1 = none ∧
      ((pageScrape specNormalizers envW7 "LAX" "DAL" "2025-03-01" "https://x").2.filter isClose).length = 1 ∧
      (∀ n, Event.countRows n ∉ (pageScrape specNormalizers envW7 "LAX" "DAL" "2025-03-01" "https://x").2) ∧
      (∀ f, Event.insertFlight f ∉ (pageScrape specNormalizers envW7 "LAX" "DAL" "2025-03-01" "https://x").2) ∧
      (∀ i, Event.logRowError i ∉ (pageScrape specNormalizers envW7 "LAX" "DAL" "2025-03-01" "https://x").2) ∧
      Event.logFatalError ∈ (pageScrape specNormalizers envW7 "LAX" "DAL" "2025-03-01" "https://x").2) :=
  ⟨rfl, c7_fatal_navigation_aborts specNormalizers envW7 "LAX" "DAL" "2025-03-01" "https://x" rfl⟩

/-- Claim C8: after load, a mismatched address triggers the bounded (~5s)
wait for a submit control; if found, a human-like click and a fixed settle
delay follow; if not found, a non-fatal warning is logged, no click happens,
and the invocation proceeds to row enumeration; a matching address attempts
neither the wait nor a click. -/
theorem c8_redirect_search_click (nz : Normalizers) (env : PageEnv) (d a ds u : String)
    (h : env.gotoFails = false) :
    (env.landedUrl ≠ u →
      Event.waitForSearchButton 5000 ∈ (pageScrape nz env d a ds u).2) ∧
    (env.landedUrl ≠ u → env.searchButton = true →
      Event.clickSearch 2500 25 ∈ (pageScrape nz env d a ds u).2 ∧
      Event.settleWait 5000 ∈ (pageScrape nz env d a ds u).2) ∧
    (env.landedUrl ≠ u → env.searchButton = false →
      Event.warnNoSearchButton ∈ (pageScrape nz env d a ds u).2 ∧
      (∀ w p, Event.clickSearch w p ∉ (pageScrape nz env d a ds u).2) ∧
      Event.countRows env.rows.length ∈ (pageScrape nz env d a ds u).2) ∧
    (env.landedUrl = u →
      (∀ w p, Event.clickSearch w p ∉ (pageScrape nz env d a ds u).2) ∧
      (∀ t, Event.waitForSearchButton t ∉ (pageScrape nz env d a ds u).2)) := by
  refine ⟨?_, ?_, ?_, ?_⟩
  · intro hne
    exact mem_trace_of_mem_redirect nz env d a ds u _ h (by simp [redirectEvents, hne])
  · intro hne hsb
    constructor
    · exact mem_trace_of_mem_redirect nz env d a ds u _ h
        (by simp [redirectEvents, hne, hsb])
    · exact mem_trace_of_mem_redirect nz env d a ds u _ h
        (by simp [redirectEvents, hne, hsb])
  · intro hne hsb
    refine ⟨?_, ?_, ?_⟩
    · exact mem_trace_of_mem_redirect nz env d a ds u _ h
        (by simp [redirectEvents, hne, hsb])
    · intro w p hmem
      rcases pageScrape_trace_mem nz env d a ds u _ hmem with
        hh | hh | hh | hh | hh | hh | hh | hh | hh | hh | hh | hh | hh | hh <;>
        simp [redirectEvents, hne, hsb] at hh
    · by_cases hr : env.rows = []
      · rw [pageScrape_zero nz env d a ds u h hr]
        simp [hr]
      · rw [pageScrape_pos nz env d a ds u h hr]
        simp
  · intro heq
    constructor
    · intro w p hmem
      rcases pageScrape_trace_mem nz env d a ds u _ hmem with
        hh | hh | hh | hh | hh | hh | hh | hh | hh | hh | hh | hh | hh | hh <;>
        simp [redirectEvents, heq] at hh
    · intro t hmem
      rcases pageScrape_trace_mem nz env d a ds u _ hmem with
        hh | hh | hh | hh | hh | hh | hh | hh | hh | hh | hh | hh | hh | hh <;>
        simp [redirectEvents, heq] at hh

theorem c8_redirect_search_click_witness :
    envW8.gotoFails = false ∧
    ((envW8.landedUrl ≠ "https://x" →
      Event.waitForSearchButton 5000
        ∈ (pageScrape specNormalizers envW8 "LAX" "DAL" "2025-03-01" "https://x").2) ∧
    (envW8.landedUrl ≠ "https://x" → envW8.searchButton = true →
      Event.clickSearch 2500 25
        ∈ (pageScrape specNormalizers envW8 "LAX" "DAL" "2025-03-01" "https://x").2 ∧
      Event.settleWait 5000
        ∈ (pageScrape specNormalizers envW8 "LAX" "DAL" "2025-03-01" "https://x").2) ∧
    (envW8.landedUrl ≠ "https://x" → envW8.searchButton = false →
      Event.warnNoSearchButton
        ∈ (pageScrape specNormalizers envW8 "LAX" "DAL" "2025-03-01" "https://x").2 ∧
      (∀ w p, Event.clickSearch w p
        ∉ (pageScrape specNormalizers envW8 "LAX" "DAL" "2025-03-01" "https://x").2) ∧
      Event.countRows envW8.rows.length
        ∈ (pageScrape specNormalizers envW8 "LAX" "DAL" "2025-03-01" "https://x").2) ∧
    (envW8.landedUrl = "https://x" →
      (∀ w p, Event.clickSearch w p
        ∉ (pageScrape specNormalizers envW8 "LAX" "DAL" "2025-03-01" "https://x").2) ∧
      (∀ t, Event.waitForSearchButton t
        ∉ (pageScrape specNormalizers envW8 "LAX" "DAL" "2025-03-01" "https://x").2))) :=
  ⟨rfl, c8_redirect_search_click specNormalizers envW8 "LAX" "DAL" "2025-03-01" "https://x" rfl⟩

/-- Claim C9: when rows are present but every row's extraction fails,
`pageScrape` returns the success-shaped empty array, distinguishable from
the zero-row outcome, which returns the null signal. -/
theorem c9_rows_present_all_fail_returns_empty (nz : Normalizers) (env : PageEnv)
    (d a ds u : String) (h1 : env.gotoFails = false) (h2 : env.rows ≠ [])
    (h3 : ∀ q ∈ env.rows, rowFails nz q = true) :
    (pageScrape nz env d a ds u).1 = some [] ∧
    ∀ env2 : PageEnv, env2.gotoFails = false → env2.rows = [] →
      (pageScrape nz env2 d a ds u).1 = none := by
  constructor
  · rw [pageScrape_pos nz env d a ds u h1 h2]
    show some (extractLoop nz d a ds 1 env.rows).1 = some []
    rw [extractLoop_fst]
    simp only [Option.some.injEq]
    rw [List.filterMap_eq_nil_iff]
    intro q hq
    have hqf := h3 q hq
    cases hE : extractRow nz q with
    | ok md => simp [rowFails, hE] at hqf
    | error e => simp [hE]
  · intro env2 hg hr
    rw [pageScrape_zero nz env2 d a ds u hg hr]

theorem c9_rows_present_all_fail_returns_empty_witness :
    envW9.gotoFails = false ∧ envW9.rows ≠ [] ∧
    (∀ q ∈ envW9.rows, rowFails specNormalizers q = true) ∧
    ((pageScrape specNormalizers envW9 "LAX" "DAL" "2025-03-01" "https://x").1 = some [] ∧
      ∀ env2 : PageEnv, env2.gotoFails = false → env2.rows = [] →
        (pageScrape specNormalizers env2 "LAX" "DAL" "2025-03-01" "https://x").1 = none) :=
  ⟨rfl, List.cons_ne_nil _ _, by decide,
    c9_rows_present_all_fail_returns_empty specNormalizers envW9 "LAX" "DAL" "2025-03-01"
      "https://x" rfl (List.cons_ne_nil _ _) (by decide)⟩

/-- Claim C10: every record of one invocation carries the invocation's
departure port, arrival port and date, unchanged. -/
theorem c10_records_carry_invocation_args (nz : Normalizers) (env : PageEnv)
    (d a ds u : String) (flights : List FlightObj)
    (h : (pageScrape nz env d a ds u).1 = some flights) :
    ∀ f ∈ flights, f.departurePort = d ∧ f.arrivalPort = a ∧ f.date = ds := by
  intro f hf
  obtain ⟨hg, hr, hfl⟩ := pageScrape_some_inv nz env d a ds u flights h
  rw [hfl, extractLoop_fst] at hf
  obtain ⟨q, hq, hsome⟩ := List.mem_filterMap.mp hf
  cases hE : extractRow nz q with
  | error e => rw [hE] at hsome; exact Option.noConfusion hsome
  | ok md =>
    rw [hE] at hsome
    cases Option.some.inj hsome
    exact ⟨rfl, rfl, rfl⟩

theorem c10_records_carry_invocation_args_witness :
    (pageScrape specNormalizers envW1 "LAX" "DAL" "2025-03-01" "https://x").1
        = some flightsW1 ∧
    ∀ f ∈ flightsW1, f.departurePort = "LAX" ∧ f.arrivalPort = "DAL" ∧
      f.date = "2025-03-01" :=
  ⟨by decide,
    c10_records_carry_invocation_args specNormalizers envW1 "LAX" "DAL" "2025-03-01"
      "https://x" flightsW1 (by decide)⟩
